import Mathlib

/-!
Verification of the beartype snippet library, exception taxonomy and
generated-wrapper structure.

The development shallowly embeds:

* the exception hierarchy of `src/beartype/roar.py` as an enumerated type
  with an explicit superclass function;
* the wrapper code snippets of `src/beartype/_decor/_wrap/wrapsnip.py` and
  `src/beartype/_decor/_code/_codesnip.py` as Lean string-building
  functions, translated fragment by fragment from the Python source;
* a line-level view of assembled wrapper source text (indent plus a
  syntactic line kind), together with a character-level splitter and
  classifier used to connect the string level with the line level;
* an operational model of the generated wrapper's call-time behaviour
  (parameter localization, hint checking, violation raising and return
  passthrough), modelled from the spec for the parts of the repository
  whose generator code is not included here.
-/

set_option maxRecDepth 100000

namespace BeartypeSpec

/-! ## Character-level utilities

Generated wrapper source text is plain Python text.  We parse it into
physical lines over `List Char` so that every operation is structurally
recursive and kernel-computable. -/

abbrev Chars := List Char

/-- Split a character list into physical lines at newline characters.
The result is always nonempty; a trailing newline yields a trailing
empty line, exactly as Python's `str.split('\n')` does. -/
def splitLines : Chars → List Chars
  | [] => [[]]
  | c :: cs =>
    if c = '\n' then [] :: splitLines cs
    else
      match splitLines cs with
      | [] => [[c]]
      | l :: ls => (c :: l) :: ls

/-- Number of leading space characters of a line. -/
def leadSpaces : Chars → Nat
  | [] => 0
  | c :: cs => if c = ' ' then leadSpaces cs + 1 else 0

/-- Syntactic kind of a physical line of generated wrapper code. -/
inductive PyLineKind where
  | blank
  | comment
  | ifOpener
  | forOpener
  | raiseLine
  | returnLine
  | plain
deriving DecidableEq

/-- A physical line of generated wrapper code, abstracted to its
indentation (in space characters) and its syntactic kind. -/
structure PyLine where
  indent : Nat
  kind : PyLineKind
deriving DecidableEq

/-- Classify the trimmed content of a line.  Order of tests mirrors the
syntax of the snippets: comments, block-opening `if`/`for` statements,
`raise` statements and `return` statements. -/
def lineKindOf (t : Chars) : PyLineKind :=
  if t = [] then PyLineKind.blank
  else if List.isPrefixOf (String.toList ("#")) t then PyLineKind.comment
  else if List.isPrefixOf (String.toList ("if ")) t then PyLineKind.ifOpener
  else if List.isPrefixOf (String.toList ("for ")) t then PyLineKind.forOpener
  else if List.isPrefixOf (String.toList ("raise")) t then PyLineKind.raiseLine
  else if List.isPrefixOf (String.toList ("return")) t then PyLineKind.returnLine
  else PyLineKind.plain

/-- Classify one physical line into its `PyLine` abstraction. -/
def classifyLine (cs : Chars) : PyLine :=
  { indent := leadSpaces cs, kind := lineKindOf (cs.dropWhile (fun c => c = ' ')) }

/-- Parse a whole generated source text into its line abstraction. -/
def pyLinesOf (s : String) : List PyLine :=
  (splitLines s.toList).map classifyLine

/-! ## The exception taxonomy of `beartype/roar.py`

Each constructor is one class defined in `src/beartype/roar.py`; the
private classes (prefixed with an underscore in Python) keep their names
without the leading underscore.  `BeartypeWarning` is a warning (deriving
from Python's `UserWarning`), not an exception, and is therefore not part
of this exception enumeration. -/

inductive RoarExc where
  | BeartypeException
  | BeartypeCaveException
  | BeartypeCaveNoneTypeOrException
  | BeartypeCaveNoneTypeOrKeyException
  | BeartypeCaveNoneTypeOrMutabilityException
  | BeartypeDecorException
  | BeartypeDecorWrappeeException
  | BeartypeDecorWrapperException
  | BeartypeDecorHintException
  | BeartypeDecorHintNonPepException
  | BeartypeDecorHintPepException
  | BeartypeDecorHintPep560Exception
  | BeartypeDecorHintPepUnsupportedException
  | BeartypeDecorParamException
  | BeartypeDecorParamNameException
  | BeartypeDecorPepException
  | BeartypeDecorPep563Exception
  | BeartypeCallException
  | BeartypeCallTypeException
  | BeartypeCallTypePepException
  | BeartypeCallTypeNonPepException
  | BeartypeCallTypeNonPepParamException
  | BeartypeCallTypeNonPepReturnException
  | BeartypeDecorBeartypistryException
  | BeartypeCallBeartypistryException
  | BeartypeUtilException
  | BeartypeUtilCacheException
  | BeartypeUtilCachedCallableException
  | BeartypeUtilCachedExceptionException
  | BeartypeUtilCachedFixedListException
deriving DecidableEq, Fintype

open RoarExc

/-- Immediate superclass of each exception class, transcribed from the
class headers of `src/beartype/roar.py`.  `BeartypeException` derives
from Python's builtin `Exception` and is the root of the hierarchy. -/
def superclass : RoarExc → Option RoarExc
  | BeartypeException => none
  | BeartypeCaveException => some BeartypeException
  | BeartypeCaveNoneTypeOrException => some BeartypeCaveException
  | BeartypeCaveNoneTypeOrKeyException => some BeartypeCaveNoneTypeOrException
  | BeartypeCaveNoneTypeOrMutabilityException => some BeartypeCaveNoneTypeOrException
  | BeartypeDecorException => some BeartypeException
  | BeartypeDecorWrappeeException => some BeartypeDecorException
  | BeartypeDecorWrapperException => some BeartypeDecorException
  | BeartypeDecorHintException => some BeartypeDecorException
  | BeartypeDecorHintNonPepException => some BeartypeDecorHintException
  | BeartypeDecorHintPepException => some BeartypeDecorHintException
  | BeartypeDecorHintPep560Exception => some BeartypeDecorHintPepException
  | BeartypeDecorHintPepUnsupportedException => some BeartypeDecorHintPepException
  | BeartypeDecorParamException => some BeartypeDecorException
  | BeartypeDecorParamNameException => some BeartypeDecorParamException
  | BeartypeDecorPepException => some BeartypeDecorException
  | BeartypeDecorPep563Exception => some BeartypeDecorPepException
  | BeartypeCallException => some BeartypeException
  | BeartypeCallTypeException => some BeartypeCallException
  | BeartypeCallTypePepException => some BeartypeCallTypeException
  | BeartypeCallTypeNonPepException => some BeartypeCallTypeException
  | BeartypeCallTypeNonPepParamException => some BeartypeCallTypeNonPepException
  | BeartypeCallTypeNonPepReturnException => some BeartypeCallTypeNonPepException
  | BeartypeDecorBeartypistryException => some BeartypeDecorException
  | BeartypeCallBeartypistryException => some BeartypeCallException
  | BeartypeUtilException => some BeartypeException
  | BeartypeUtilCacheException => some BeartypeUtilException
  | BeartypeUtilCachedCallableException => some BeartypeUtilCacheException
  | BeartypeUtilCachedExceptionException => some BeartypeUtilCacheException
  | BeartypeUtilCachedFixedListException => some BeartypeUtilCacheException

/-- Whether a class is declared abstract in `roar.py`
(`metaclass=_ABCMeta`). -/
def isAbstractExc : RoarExc → Bool
  | BeartypeException => true
  | BeartypeCaveException => true
  | BeartypeCaveNoneTypeOrException => true
  | BeartypeDecorException => true
  | BeartypeDecorHintException => true
  | BeartypeDecorHintPepException => true
  | BeartypeDecorParamException => true
  | BeartypeDecorPepException => true
  | BeartypeCallException => true
  | BeartypeCallTypeException => true
  | BeartypeCallTypePepException => true
  | BeartypeCallTypeNonPepException => true
  | BeartypeUtilException => true
  | BeartypeUtilCacheException => true
  | _ => false

/-- Chain of classes from `e` up to the root, following `superclass`
with explicit fuel (the hierarchy is at most five levels deep; any fuel
at least that large yields the full chain). -/
def superChain : Nat → RoarExc → List RoarExc
  | 0, e => [e]
  | n + 1, e =>
    e :: (match superclass e with
          | none => []
          | some p => superChain n p)

/-- Python `issubclass` on the transcribed hierarchy: reflexive and
transitive closure of `superclass`. -/
def derives (a b : RoarExc) : Bool :=
  b ∈ superChain 8 a

/-- A class is a leaf when no class in the module subclasses it. -/
def isLeafExc (e : RoarExc) : Bool :=
  decide (∀ e' : RoarExc, superclass e' ≠ some e)

/--
C7: The exception taxonomy is rooted at the single base class
`BeartypeException`, from which every exception class of `roar.py`
derives.  The decoration-time hint branch (`BeartypeDecorHintException`),
the decoration-time parameter branch (`BeartypeDecorParamException`) and
the call-time type-violation branch (`BeartypeCallTypeException`) are
distinct abstract classes, none deriving from another, with the first two
under the decoration-time branch and the last under the call-time branch.
The parameter-violation and return-violation kinds
(`BeartypeCallTypeNonPepParamException` and
`BeartypeCallTypeNonPepReturnException`) are two distinct concrete leaf
classes of the call-time type-violation branch.
-/
theorem roar_taxonomy_rooted_and_branched :
    (∀ e : RoarExc, derives e BeartypeException = true)
    ∧ (isAbstractExc BeartypeException = true)
    ∧ (isAbstractExc BeartypeDecorHintException = true
        ∧ isAbstractExc BeartypeDecorParamException = true
        ∧ isAbstractExc BeartypeCallTypeException = true)
    ∧ (derives BeartypeDecorHintException BeartypeDecorParamException = false
        ∧ derives BeartypeDecorParamException BeartypeDecorHintException = false
        ∧ derives BeartypeCallTypeException BeartypeDecorHintException = false
        ∧ derives BeartypeDecorHintException BeartypeCallTypeException = false
        ∧ derives BeartypeCallTypeException BeartypeDecorParamException = false
        ∧ derives BeartypeDecorParamException BeartypeCallTypeException = false)
    ∧ (derives BeartypeDecorHintException BeartypeDecorException = true
        ∧ derives BeartypeDecorParamException BeartypeDecorException = true
        ∧ derives BeartypeCallTypeException BeartypeCallException = true)
    ∧ (BeartypeCallTypeNonPepParamException ≠ BeartypeCallTypeNonPepReturnException
        ∧ isAbstractExc BeartypeCallTypeNonPepParamException = false
        ∧ isAbstractExc BeartypeCallTypeNonPepReturnException = false
        ∧ isLeafExc BeartypeCallTypeNonPepParamException = true
        ∧ isLeafExc BeartypeCallTypeNonPepReturnException = true
        ∧ derives BeartypeCallTypeNonPepParamException BeartypeCallTypeException = true
        ∧ derives BeartypeCallTypeNonPepReturnException BeartypeCallTypeException = true) := by
  refine ⟨fun e => ?_, ?_, ⟨?_, ?_, ?_⟩, ⟨?_, ?_, ?_, ?_, ?_, ?_⟩, ⟨?_, ?_, ?_⟩,
    ⟨?_, ?_, ?_, ?_, ?_, ?_, ?_⟩⟩ <;> first
  | (cases e <;> decide)
  | decide

/-! ## Magic names used by the snippets

`wrapsnip.py` imports these name constants from
`beartype._check.checkmagic` and `beartype._data.datakind`, modules not
included in this repository snapshot. -/

/-- Name of the hidden parameter binding the decorated callable.  Defined
in `src/beartype/_decor/_code/_codesnip.py` as `PARAM_NAME_FUNC`; the
same name is imported by `wrapsnip.py` as `ARG_NAME_FUNC`. -/
def ARG_NAME_FUNC : String := "__beartype_func"

/-- Name of the hidden parameter binding the beartypistry singleton,
defined in `src/beartype/_decor/_code/_codesnip.py` as
`PARAM_NAME_TYPISTRY`. -/
def PARAM_NAME_TYPISTRY : String := "__beartypistry"

/-- Modelled from the spec: `ARG_NAME_BEARTYPE_CONF`, imported by
`wrapsnip.py` from the missing `beartype._check.checkmagic` module; the
hidden parameter binding the beartype configuration, following the
`__beartype_`-prefixed naming convention of the other snippet names. -/
def ARG_NAME_BEARTYPE_CONF : String := "__beartype_conf"

/-- Name of the hidden parameter binding the violation-raising function.
Imported by `wrapsnip.py` from the missing `beartype._check.checkmagic`
module; its value is fixed by the snippet comments in `wrapsnip.py`
naming the sentinel `"__beartype_raise_exception"`. -/
def ARG_NAME_RAISE_EXCEPTION : String := "__beartype_raise_exception"

/-- Name of the local variable holding the number of passed positional
arguments.  Its value is fixed by the snippet
`CODE_PARAMS_POSITIONAL_INIT` of `src/beartype/_decor/_code/_codesnip.py`,
which hard-codes `__beartype_args_len`. -/
def VAR_NAME_ARGS_LEN : String := "__beartype_args_len"

/-- Modelled from the spec: `VAR_NAME_PITH_ROOT`, imported by
`wrapsnip.py` from the missing `beartype._check.checkmagic` module; the
name of the local variable holding the root pith (the current parameter
or return value), following the `__beartype_` naming convention. -/
def VAR_NAME_PITH_ROOT : String := "__beartype_pith_0"

/-- Modelled from the spec: `VAR_NAME_RANDOM_INT`, imported by
`wrapsnip.py` from the missing `beartype._check.checkmagic` module; the
name of the local variable holding the pseudo-random integer generated
for container sampling. -/
def VAR_NAME_RANDOM_INT : String := "__beartype_random_int"

/-- Modelled from the spec: `ARG_NAME_RETURN_REPR`, imported by
`wrapsnip.py` from the missing `beartype._data.datakind` module; the
Python `repr` of the string `"return"`, spliced into generated code as
the pith name of a checked return value. -/
def ARG_NAME_RETURN_REPR : String := "'return'"

/-- Python `repr` of an identifier string, as produced by the `!r`
format conversions in the snippets (identifiers contain no quotes). -/
def pyReprStr (s : String) : String := "'" ++ s ++ "'"

/-! ## The snippets of `_codesnip.py` and `wrapsnip.py`

Each definition transcribes one string constant of the source, with the
`format`/f-string holes turned into function arguments. -/

/-- A single level of indentation (`CODE_INDENT_1` in both
`_codesnip.py` and `beartype._util.text.utiltextmagic`). -/
def CODE_INDENT_1 : String := "    "

/-- `_codesnip.CODE_SIGNATURE`: wrapper signature with exactly the two
hidden defaulted parameters `PARAM_NAME_FUNC` and `PARAM_NAME_TYPISTRY`
between `*args` and `**kwargs`. -/
def codesnipCodeSignature (func_wrapper_name : String) : String :=
  "def " ++ func_wrapper_name ++ "(\n    *args,\n    "
    ++ ARG_NAME_FUNC ++ "=" ++ ARG_NAME_FUNC ++ ",\n    "
    ++ PARAM_NAME_TYPISTRY ++ "=" ++ PARAM_NAME_TYPISTRY ++ ",\n    **kwargs\n):"

/-- `wrapsnip.CODE_SIGNATURE`: wrapper signature template; the hidden
parameter declarations are interpolated through `code_signature_args`. -/
def wrapsnipCodeSignature
    (code_signature_pre func_name code_signature_args : String) : String :=
  code_signature_pre ++ "def " ++ func_name ++ "(\n    *args,\n"
    ++ code_signature_args ++ CODE_INDENT_1 ++ "**kwargs\n):"

/-- Modelled from the spec: the `code_signature_args` interpolation is
produced by the wrapper assembler (`beartype._decor.wrap.wrapmain`, not
included here).  Per the spec's `WrapperSignature` invariant the wrapper
declares exactly two hidden defaulted parameters, binding the decorated
callable and the beartypistry singleton, one per line at one indentation
level, mirroring `_codesnip.CODE_SIGNATURE`. -/
def codeSignatureArgsTwoHidden : String :=
  "    " ++ ARG_NAME_FUNC ++ "=" ++ ARG_NAME_FUNC ++ ",\n    "
    ++ PARAM_NAME_TYPISTRY ++ "=" ++ PARAM_NAME_TYPISTRY ++ ",\n"

/-- `wrapsnip.CODE_INIT_ARGS_LEN` (also
`_codesnip.CODE_PARAMS_POSITIONAL_INIT`): localize the number of passed
positional arguments. -/
def CODE_INIT_ARGS_LEN : String :=
  "\n    # Localize the number of passed positional arguments for efficiency.\n    "
    ++ VAR_NAME_ARGS_LEN ++ " = len(args)"

/-- `wrapsnip.CODE_PITH_ROOT_PARAM_NAME_PLACEHOLDER`: placeholder
substring globally replaced by the root pith name (the `repr` of the
parameter name, or `ARG_NAME_RETURN_REPR`) after memoized code
generation. -/
def CODE_PITH_ROOT_PARAM_NAME_PLACEHOLDER : String := "?|PITH_ROOT_NAME`^"

/-- `wrapsnip.CODE_HINT_ROOT_PREFIX`: opens the root-pith type check;
locally suffixed by the synthesized boolean expression and
`CODE_HINT_ROOT_SUFFIX`. -/
def CODE_HINT_ROOT_PREFIX : String :=
  "\n        # Type-check this passed parameter or return value against this\n        # PEP-compliant type hint.\n        if not "

/-- `wrapsnip.CODE_HINT_ROOT_SUFFIX`: closes the root-pith type check
with the raise of the call-time violation.  `pith_name_code` is the code
occupying the `CODE_PITH_ROOT_PARAM_NAME_PLACEHOLDER` slot (the
placeholder itself before substitution, the `repr` of the parameter name
or `ARG_NAME_RETURN_REPR` after); `random_int_if_any` is either the
empty string or `CODE_HINT_ROOT_SUFFIX_RANDOM_INT`. -/
def CODE_HINT_ROOT_SUFFIX (pith_name_code random_int_if_any : String) : String :=
  ":\n            raise " ++ ARG_NAME_RAISE_EXCEPTION ++ "(\n                func="
    ++ ARG_NAME_FUNC ++ ",\n                conf="
    ++ ARG_NAME_BEARTYPE_CONF ++ ",\n                pith_name="
    ++ pith_name_code ++ ",\n                pith_value="
    ++ VAR_NAME_PITH_ROOT ++ "," ++ random_int_if_any ++ "\n            )\n"

/-- `wrapsnip.CODE_HINT_ROOT_SUFFIX_RANDOM_INT`: passes the pseudo-random
integer to the violation-raising call. -/
def CODE_HINT_ROOT_SUFFIX_RANDOM_INT : String :=
  "\n                random_int=" ++ VAR_NAME_RANDOM_INT ++ ","

/-- `wrapsnip.PARAM_KIND_TO_CODE_LOCALIZE[ArgKind.POSITIONAL_ONLY]`:
localize a positional-only parameter by positional index, under a
conditional skipping the check when the parameter was not passed. -/
def localizeCodePositionalOnly (arg_index : Nat) : String :=
  "\n    # If this positional-only parameter was passed...\n    if "
    ++ VAR_NAME_ARGS_LEN ++ " > " ++ toString arg_index
    ++ ":\n        # Localize this positional-only parameter.\n        "
    ++ VAR_NAME_PITH_ROOT ++ " = args[" ++ toString arg_index ++ "]"

/-- `wrapsnip.PARAM_KIND_TO_CODE_LOCALIZE[ArgKind.POSITIONAL_OR_KEYWORD]`:
localize by positional index when passed positionally, else by keyword
lookup defaulting to the never-passed `ARG_NAME_RAISE_EXCEPTION`
sentinel, then check only if the parameter was passed. -/
def localizeCodePositionalOrKeyword (arg_index : Nat) (arg_name : String) : String :=
  "\n    # Localize this positional or keyword parameter if passed *OR* to the\n    # sentinel \"__beartype_raise_exception\" guaranteed to never be passed.\n    "
    ++ VAR_NAME_PITH_ROOT ++ " = (\n        args[" ++ toString arg_index
    ++ "] if " ++ VAR_NAME_ARGS_LEN ++ " > " ++ toString arg_index
    ++ " else\n        kwargs.get(" ++ pyReprStr arg_name ++ ", "
    ++ ARG_NAME_RAISE_EXCEPTION
    ++ ")\n    )\n\n    # If this parameter was passed...\n    if "
    ++ VAR_NAME_PITH_ROOT ++ " is not " ++ ARG_NAME_RAISE_EXCEPTION ++ ":"

/-- `wrapsnip.PARAM_KIND_TO_CODE_LOCALIZE[ArgKind.KEYWORD_ONLY]`:
localize a keyword-only parameter by keyword lookup defaulting to the
never-passed sentinel, then check only if the parameter was passed. -/
def localizeCodeKeywordOnly (arg_name : String) : String :=
  "\n    # Localize this keyword-only parameter if passed *OR* to the sentinel value\n    # \"__beartype_raise_exception\" guaranteed to never be passed.\n    "
    ++ VAR_NAME_PITH_ROOT ++ " = kwargs.get(" ++ pyReprStr arg_name ++ ", "
    ++ ARG_NAME_RAISE_EXCEPTION
    ++ ")\n\n    # If this parameter was passed...\n    if "
    ++ VAR_NAME_PITH_ROOT ++ " is not " ++ ARG_NAME_RAISE_EXCEPTION ++ ":"

/-- `wrapsnip.PARAM_KIND_TO_CODE_LOCALIZE[ArgKind.VAR_POSITIONAL]`:
iteratively localize all passed variadic positional parameters (the
`{arg_index!r}` conversion of an `int` is its decimal notation). -/
def localizeCodeVarPositional (arg_index : Nat) : String :=
  "\n    # For all passed variadic positional parameters...\n    for "
    ++ VAR_NAME_PITH_ROOT ++ " in args[" ++ toString arg_index ++ ":]:"

/-- `wrapsnip.CODE_RETURN_CHECK_PREFIX`: call the decorated callable,
localize its return value as the root pith, and open the artificial
`if True:` block so return checking reuses the parameter-check
indentation. -/
def CODE_RETURN_CHECK_PREFIX (func_call_pre : String) : String :=
  "\n    # Call this function with all passed parameters and localize the value\n    # returned from this call.\n    "
    ++ VAR_NAME_PITH_ROOT ++ " = " ++ func_call_pre ++ ARG_NAME_FUNC
    ++ "(*args, **kwargs)\n\n    # Noop required to artificially increase indentation level. Note that\n    # CPython implicitly optimizes this conditional away. Isn't that nice?\n    if True:"

/-- `wrapsnip.CODE_RETURN_CHECK_SUFFIX`: return the successfully checked
root pith variable, the very variable the call result was localized to. -/
def CODE_RETURN_CHECK_SUFFIX : String :=
  "\n    return " ++ VAR_NAME_PITH_ROOT

/-- `wrapsnip.PEP484_CODE_CHECK_NORETURN`: call the decorated callable
and, since its return is annotated `typing.NoReturn`, unconditionally
raise a violation naming the pith `'return'` with the returned object as
pith value.  (This snippet hard-codes a synchronous call with no
`func_call_prefix` hole.) -/
def PEP484_CODE_CHECK_NORETURN : String :=
  "\n    # Call this function with all passed parameters and localize the value\n    # returned from this call.\n    "
    ++ VAR_NAME_PITH_ROOT ++ " = " ++ ARG_NAME_FUNC
    ++ "(*args, **kwargs)\n\n    # Since this function annotated by \"typing.NoReturn\" successfully returned a\n    # value rather than raising an exception or halting the active Python\n    # interpreter, unconditionally raise an exception.\n    raise "
    ++ ARG_NAME_RAISE_EXCEPTION ++ "(\n        func=" ++ ARG_NAME_FUNC
    ++ ",\n        conf=" ++ ARG_NAME_BEARTYPE_CONF
    ++ ",\n        pith_name=" ++ ARG_NAME_RETURN_REPR
    ++ ",\n        pith_value=" ++ VAR_NAME_PITH_ROOT ++ ",\n    )"

/-- `wrapsnip.CODE_RETURN_UNCHECKED`: call the decorated callable and
return its result directly, without type-checking it. -/
def CODE_RETURN_UNCHECKED (func_call_pre : String) : String :=
  "\n    # Call this function with all passed parameters and return the value\n    # returned from this call.\n    return "
    ++ func_call_pre ++ ARG_NAME_FUNC ++ "(*args, **kwargs)"

/-! ## String-level wrapper assembly

`ArgKind` transcribes the parameter kinds supported by
`wrapsnip.PARAM_KIND_TO_CODE_LOCALIZE` (from
`beartype._util.func.arg.utilfuncargiter.ArgKind`). -/

inductive ArgKind where
  | positionalOnly
  | positionalOrKeyword
  | keywordOnly
  | varPositional
deriving DecidableEq

/-- Whether the localization snippet for a parameter kind reads
`VAR_NAME_ARGS_LEN`, requiring the `CODE_INIT_ARGS_LEN` preamble. -/
def usesArgsLen : ArgKind → Bool
  | ArgKind.positionalOnly => true
  | ArgKind.positionalOrKeyword => true
  | ArgKind.keywordOnly => false
  | ArgKind.varPositional => false

/-- One parameter of a decorated callable, as seen by the wrapper
assembler: its name, 0-based index, kind, the boolean check expression
synthesized for its hint (`none` when the parameter is unhinted, in
which case no code at all is generated for it), and whether its check
needs the pseudo-random integer. -/
structure ParamSpecS where
  name : String
  index : Nat
  kind : ArgKind
  hintExpr : Option String
  randInt : Bool
deriving DecidableEq

/-- Localization snippet selected for a parameter, exactly as looked up
in `wrapsnip.PARAM_KIND_TO_CODE_LOCALIZE`. -/
def localizeCodeFor (p : ParamSpecS) : String :=
  match p.kind with
  | ArgKind.positionalOnly => localizeCodePositionalOnly p.index
  | ArgKind.positionalOrKeyword => localizeCodePositionalOrKeyword p.index p.name
  | ArgKind.keywordOnly => localizeCodeKeywordOnly p.name
  | ArgKind.varPositional => localizeCodeVarPositional p.index

/-- Root-hint check fragment: `CODE_HINT_ROOT_PREFIX`, the synthesized
boolean expression, and `CODE_HINT_ROOT_SUFFIX` with the pith-name
placeholder already substituted. -/
def checkCodeFor (expr pith_name_code : String) (randInt : Bool) : String :=
  CODE_HINT_ROOT_PREFIX ++ expr
    ++ CODE_HINT_ROOT_SUFFIX pith_name_code
        (if randInt then CODE_HINT_ROOT_SUFFIX_RANDOM_INT else "")

/-- Modelled from the spec (§4.3): the wrapper assembler
(`beartype._decor.wrap.wrapmain`, not included here) emits, for each
hinted parameter in declaration order, its localization snippet followed
by its check fragment; an unhinted parameter contributes no code. -/
def paramCodeFor (p : ParamSpecS) : String :=
  match p.hintExpr with
  | none => ""
  | some expr => localizeCodeFor p ++ checkCodeFor expr (pyReprStr p.name) p.randInt

/-- Return-handling mode of an assembled wrapper: return the call result
unchecked, localize-check-return it, or (for `typing.NoReturn`)
unconditionally raise. -/
inductive RetSpecS where
  | unchecked (func_call_pre : String)
  | checked (func_call_pre expr : String) (randInt : Bool)
  | noReturn
deriving DecidableEq

/-- Modelled from the spec (§4.3): return-handling code appended by the
wrapper assembler, built from the return snippets of `wrapsnip.py`. -/
def retCodeFor : RetSpecS → String
  | RetSpecS.unchecked pre => CODE_RETURN_UNCHECKED pre
  | RetSpecS.checked pre expr randInt =>
      CODE_RETURN_CHECK_PREFIX pre
        ++ checkCodeFor expr ARG_NAME_RETURN_REPR randInt
        ++ CODE_RETURN_CHECK_SUFFIX
  | RetSpecS.noReturn => PEP484_CODE_CHECK_NORETURN

/-- Modelled from the spec (§4.3): the complete assembled wrapper text —
signature, positional-argument-count preamble when some parameter needs
it, per-parameter localization and check fragments in declaration order,
and the return-handling code. -/
def wrapperText (func_name : String) (ps : List ParamSpecS) (ret : RetSpecS) : String :=
  wrapsnipCodeSignature ("") func_name codeSignatureArgsTwoHidden
    ++ (if ps.any (fun p => usesArgsLen p.kind) then CODE_INIT_ARGS_LEN else "")
    ++ String.join (ps.map paramCodeFor)
    ++ retCodeFor ret

/-! ## Line-level model of the assembled wrapper

Each definition below lists, in order, the `PyLine` abstraction of the
physical lines of the corresponding snippet, transcribed line by line
from the string snippets above (indent in spaces, then kind).  A
fragment's leading `"\n"` terminates the previous fragment's last line,
so fragments concatenate at line granularity; the only snippet ending in
`"\n"` is `CODE_HINT_ROOT_SUFFIX`, whose trailing newline combines with
the following fragment's leading newline into one blank line, listed
here at the end of `checkLinesL`.  The bridge theorems further below
verify these transcriptions against the actual strings. -/

/-- Shorthand constructor for a `PyLine`. -/
def pl (i : Nat) (k : PyLineKind) : PyLine := { indent := i, kind := k }

/-- Lines of the wrapper signature (with the two hidden defaulted
parameters of `codeSignatureArgsTwoHidden`). -/
def sigLinesL : List PyLine :=
  [pl 0 PyLineKind.plain, pl 4 PyLineKind.plain, pl 4 PyLineKind.plain,
   pl 4 PyLineKind.plain, pl 4 PyLineKind.plain, pl 0 PyLineKind.plain]

/-- Lines of `CODE_INIT_ARGS_LEN`. -/
def argsLenLinesL : List PyLine :=
  [pl 4 PyLineKind.comment, pl 4 PyLineKind.plain]

/-- Lines of the localization snippet of each parameter kind. -/
def localizeLinesL : ArgKind → List PyLine
  | ArgKind.positionalOnly =>
      [pl 4 PyLineKind.comment, pl 4 PyLineKind.ifOpener,
       pl 8 PyLineKind.comment, pl 8 PyLineKind.plain]
  | ArgKind.positionalOrKeyword =>
      [pl 4 PyLineKind.comment, pl 4 PyLineKind.comment, pl 4 PyLineKind.plain,
       pl 8 PyLineKind.plain, pl 8 PyLineKind.plain, pl 4 PyLineKind.plain,
       pl 0 PyLineKind.blank, pl 4 PyLineKind.comment, pl 4 PyLineKind.ifOpener]
  | ArgKind.keywordOnly =>
      [pl 4 PyLineKind.comment, pl 4 PyLineKind.comment, pl 4 PyLineKind.plain,
       pl 0 PyLineKind.blank, pl 4 PyLineKind.comment, pl 4 PyLineKind.ifOpener]
  | ArgKind.varPositional =>
      [pl 4 PyLineKind.comment, pl 4 PyLineKind.forOpener]

/-- Lines of the root-hint-check fragment (`CODE_HINT_ROOT_PREFIX`, the
single-line boolean expression, and `CODE_HINT_ROOT_SUFFIX`), including
the blank line produced by the suffix's trailing newline meeting the
next fragment's leading newline. -/
def checkLinesL (randInt : Bool) : List PyLine :=
  [pl 8 PyLineKind.comment, pl 8 PyLineKind.comment, pl 8 PyLineKind.ifOpener,
   pl 12 PyLineKind.raiseLine, pl 16 PyLineKind.plain, pl 16 PyLineKind.plain,
   pl 16 PyLineKind.plain, pl 16 PyLineKind.plain]
  ++ (if randInt then [pl 16 PyLineKind.plain] else [])
  ++ [pl 12 PyLineKind.plain, pl 0 PyLineKind.blank]

/-- Line-level view of one parameter: kind, whether it is hinted, and
whether its check uses the pseudo-random integer. -/
structure ParamSpecL where
  kind : ArgKind
  hinted : Bool
  randInt : Bool
deriving DecidableEq

/-- Line-level view of a string-level parameter. -/
def toParamSpecL (p : ParamSpecS) : ParamSpecL :=
  { kind := p.kind, hinted := p.hintExpr.isSome, randInt := p.randInt }

/-- Lines contributed by one parameter: localization then check for a
hinted parameter, nothing for an unhinted one. -/
def paramLinesL (p : ParamSpecL) : List PyLine :=
  if p.hinted then localizeLinesL p.kind ++ checkLinesL p.randInt else []

/-- Line-level view of the return-handling mode. -/
inductive RetSpecL where
  | unchecked
  | checked (randInt : Bool)
  | noReturn
deriving DecidableEq

/-- Line-level view of a string-level return mode. -/
def toRetSpecL : RetSpecS → RetSpecL
  | RetSpecS.unchecked _ => RetSpecL.unchecked
  | RetSpecS.checked _ _ r => RetSpecL.checked r
  | RetSpecS.noReturn => RetSpecL.noReturn

/-- Lines of the return-handling code. -/
def retLinesL : RetSpecL → List PyLine
  | RetSpecL.unchecked =>
      [pl 4 PyLineKind.comment, pl 4 PyLineKind.comment, pl 4 PyLineKind.returnLine]
  | RetSpecL.checked randInt =>
      [pl 4 PyLineKind.comment, pl 4 PyLineKind.comment, pl 4 PyLineKind.plain,
       pl 0 PyLineKind.blank, pl 4 PyLineKind.comment, pl 4 PyLineKind.comment,
       pl 4 PyLineKind.ifOpener]
      ++ checkLinesL randInt ++ [pl 4 PyLineKind.returnLine]
  | RetSpecL.noReturn =>
      [pl 4 PyLineKind.comment, pl 4 PyLineKind.comment, pl 4 PyLineKind.plain,
       pl 0 PyLineKind.blank, pl 4 PyLineKind.comment, pl 4 PyLineKind.comment,
       pl 4 PyLineKind.comment, pl 4 PyLineKind.raiseLine, pl 8 PyLineKind.plain,
       pl 8 PyLineKind.plain, pl 8 PyLineKind.plain, pl 8 PyLineKind.plain,
       pl 4 PyLineKind.plain]

/-- Line-level model of a complete assembled wrapper. -/
def wrapperLines (ps : List ParamSpecL) (ret : RetSpecL) : List PyLine :=
  sigLinesL
    ++ (if ps.any (fun p => usesArgsLen p.kind) then argsLenLinesL else [])
    ++ ps.flatMap paramLinesL
    ++ retLinesL ret

/-! ### Bridge theorems

Concrete assembled wrappers, parsed character by character from the
string level, classify exactly to the line-level model.  Together the
two instantiations exercise every snippet of the line-level model. -/

/-- Representative single-line boolean check expression (what the
expression synthesizer produces for the hint `int` on the root pith). -/
def exprIntCheck : String :=
  "isinstance(" ++ VAR_NAME_PITH_ROOT ++ ", int)"

/-- Bridge: a wrapper for `f(x: int) -> int` (one positional-or-keyword
parameter, checked return) parses to its line-level model. -/
theorem wrapper_lines_bridge_posOrKw_checked :
    pyLinesOf (wrapperText ("f")
        [{ name := "x", index := 0, kind := ArgKind.positionalOrKeyword,
           hintExpr := some exprIntCheck, randInt := false }]
        (RetSpecS.checked ("") exprIntCheck false))
    = wrapperLines
        [{ kind := ArgKind.positionalOrKeyword, hinted := true, randInt := false }]
        (RetSpecL.checked false) := by
  decide

/-- Bridge: a wrapper with positional-only (sampled container check),
keyword-only, variadic-positional and unhinted parameters and a
`typing.NoReturn` return parses to its line-level model. -/
theorem wrapper_lines_bridge_mixed_noreturn :
    pyLinesOf (wrapperText ("g")
        [{ name := "a", index := 0, kind := ArgKind.positionalOnly,
           hintExpr := some exprIntCheck, randInt := true },
         { name := "u", index := 1, kind := ArgKind.positionalOrKeyword,
           hintExpr := none, randInt := false },
         { name := "k", index := 2, kind := ArgKind.keywordOnly,
           hintExpr := some exprIntCheck, randInt := false },
         { name := "v", index := 3, kind := ArgKind.varPositional,
           hintExpr := some exprIntCheck, randInt := false }]
        RetSpecS.noReturn)
    = wrapperLines
        [{ kind := ArgKind.positionalOnly, hinted := true, randInt := true },
         { kind := ArgKind.positionalOrKeyword, hinted := false, randInt := false },
         { kind := ArgKind.keywordOnly, hinted := true, randInt := false },
         { kind := ArgKind.varPositional, hinted := true, randInt := false }]
        RetSpecL.noReturn := by
  decide

/-- Bridge: a wrapper with no parameters and an unchecked return parses
to its line-level model. -/
theorem wrapper_lines_bridge_unchecked :
    pyLinesOf (wrapperText ("h") [] (RetSpecS.unchecked ("")))
    = wrapperLines [] RetSpecL.unchecked := by
  decide

/-! ## Block structure of assembled wrapper text (claim C5) -/

/-- A terminating line: a `raise` or `return` statement. -/
def isTermLine (l : PyLine) : Bool :=
  match l.kind with
  | PyLineKind.raiseLine => true
  | PyLineKind.returnLine => true
  | _ => false

/-- A conditional-opening `if` line is matched when the first
raise-or-return line following it sits at the same or deeper
indentation.  (Matching each opener to the *first* following terminator
makes the matching terminator unique.) -/
def openerOK (l : PyLine) (rest : List PyLine) : Bool :=
  if l.kind = PyLineKind.ifOpener then
    match rest.find? isTermLine with
    | some t => decide (l.indent ≤ t.indent)
    | none => false
  else true

/-- Every conditional-opening `if` line of the text is matched by its
first following raise-or-return line, at the same or deeper
indentation. -/
def openersMatched : List PyLine → Bool
  | [] => true
  | l :: rest => openerOK l rest && openersMatched rest

theorem openerOK_append_left {l : PyLine} {A B : List PyLine}
    (h : openerOK l A = true) : openerOK l (A ++ B) = true := by
  unfold openerOK at h ⊢
  by_cases hk : l.kind = PyLineKind.ifOpener
  · rw [if_pos hk] at h ⊢
    rw [List.find?_append]
    cases hA : A.find? isTermLine with
    | none => rw [hA] at h; exact absurd h (by simp)
    | some t => rw [hA] at h; simpa [Option.or] using h
  · rw [if_neg hk]

theorem openersMatched_append {A B : List PyLine}
    (hA : openersMatched A = true) (hB : openersMatched B = true) :
    openersMatched (A ++ B) = true := by
  induction A with
  | nil => simpa using hB
  | cons l A ih =>
    rw [List.cons_append]
    simp only [openersMatched, Bool.and_eq_true] at hA ⊢
    exact ⟨openerOK_append_left hA.1, ih hA.2⟩

theorem openersMatched_paramLines (p : ParamSpecL) :
    openersMatched (paramLinesL p) = true := by
  rcases p with ⟨k, h, r⟩
  cases k <;> cases h <;> cases r <;> decide

theorem openersMatched_flatMap (ps : List ParamSpecL) :
    openersMatched (ps.flatMap paramLinesL) = true := by
  induction ps with
  | nil => decide
  | cons p ps ih =>
    rw [List.flatMap_cons]
    exact openersMatched_append (openersMatched_paramLines p) ih

theorem openersMatched_retLines (ret : RetSpecL) :
    openersMatched (retLinesL ret) = true := by
  cases ret with
  | unchecked => decide
  | checked r => cases r <;> decide
  | noReturn => decide

/--
C5: In every assembled wrapper text — for any parameter list and any
return-handling mode — each line that opens a conditional block (the
parameter-localization `if`, the root-hint-check `if not`, or the
return-interception `if True:`, i.e. every `if`-opening line the
snippets produce) is matched by exactly one terminating raise-or-return
line, namely its first following one, which sits at the same or deeper
indentation; so fragment concatenation always yields well-formed block
structure.
-/
theorem wrapper_openers_matched (ps : List ParamSpecL) (ret : RetSpecL) :
    openersMatched (wrapperLines ps ret) = true := by
  unfold wrapperLines
  refine openersMatched_append (openersMatched_append (openersMatched_append ?_ ?_) ?_) ?_
  · decide
  · by_cases hc : ps.any (fun p => usesArgsLen p.kind) = true
    · rw [if_pos hc]; decide
    · rw [if_neg hc]; decide
  · exact openersMatched_flatMap ps
  · exact openersMatched_retLines ret

/-! ## Call-time semantics of the generated wrapper

The modules implementing the violation reporter and executing the
generated code are not part of this repository snapshot; the semantics
below is modelled from the spec (§4.3, §4.5, §6) and from the localization
and return snippets themselves, over an arbitrary type `α` of runtime
values. -/

/-- The arguments of one wrapper invocation: the variadic positional
tuple `*args` and the keyword dictionary `**kwargs`. -/
structure Args (α : Type) where
  pos : List α
  kw : List (String × α)

/-- One parameter of a decorated callable as seen at call time: name,
0-based index, kind, and the decidable check its hint compiles to
(`none` when the parameter is unhinted). -/
structure SemParam (α : Type) where
  name : String
  index : Nat
  kind : ArgKind
  hint : Option (α → Bool)

/-- `kwargs.get(name, sentinel)`: keyword lookup, `none` standing for
the never-passed `ARG_NAME_RAISE_EXCEPTION` sentinel default. -/
def lookupKw {α : Type} (kw : List (String × α)) (name : String) : Option α :=
  (kw.find? (fun q => q.1 == name)).map (fun q => q.2)

/-- Values the localization snippet of a parameter binds to the root
pith variable, in the order the generated code checks them; the empty
list when the parameter was not passed.  Transcribed from
`PARAM_KIND_TO_CODE_LOCALIZE`: positional-only parameters read
`args[index]` when `__beartype_args_len > index`; positional-or-keyword
parameters fall back to keyword lookup with the never-passed sentinel
default; keyword-only parameters use keyword lookup only; variadic
positional parameters iterate over `args[index:]`. -/
def localizedPiths {α : Type} (p : SemParam α) (a : Args α) : List α :=
  match p.kind with
  | ArgKind.positionalOnly =>
      match a.pos[p.index]? with
      | some v => [v]
      | none => []
  | ArgKind.positionalOrKeyword =>
      match a.pos[p.index]? with
      | some v => [v]
      | none => (lookupKw a.kw p.name).toList
  | ArgKind.keywordOnly => (lookupKw a.kw p.name).toList
  | ArgKind.varPositional => a.pos.drop p.index

/-- The check a parameter's hint compiles to; an unhinted parameter
accepts anything. -/
def hintOf {α : Type} (p : SemParam α) : α → Bool :=
  p.hint.getD (fun _ => true)

/-- A culprit attached to a violation: the offending value itself, or a
textual stand-in for it. -/
inductive Culprit (α : Type) where
  | val (v : α)
  | standIn (s : String)
deriving DecidableEq

/-- Modelled from the spec (§4.5 and the test assertions): the policy by
which the violation reporter renders the offending value as the first
culprit — the value itself when it can be weakly referenced, else a
non-empty textual stand-in. -/
structure CulpritPolicy (α : Type) where
  mkCulprit : α → Culprit α
  mk_ok : ∀ v, mkCulprit v = Culprit.val v ∨ ∃ s, mkCulprit v = Culprit.standIn s ∧ s ≠ ""

/-- A raised call-time violation: the structured record carried by the
exception the generated `raise` snippet produces. -/
structure Violation (α : Type) where
  funcName : String
  pithName : String
  pithValue : α
  message : String
  culprits : List (Culprit α)

/-- Modelled from the spec (§4.5): the violation reporter invoked by the
generated raise site (`ARG_NAME_RAISE_EXCEPTION` in the snippets).  It
receives the function, the pith name and the pith value, builds a
message prefixed by `"Function "` identifying the callable and the
offending parameter or return, and attaches the culprits with the
immediate offending value first. -/
def raiseViolation {α : Type} (cp : CulpritPolicy α) (funcName pithName : String)
    (v : α) : Violation α :=
  { funcName := funcName
    pithName := pithName
    pithValue := v
    message := "Function " ++ funcName ++ "() " ++ pithName ++ " violates its type hint."
    culprits := [cp.mkCulprit v] }

/-- Parameter violations and return violations are the two call-time
violation kinds. -/
inductive VioKind where
  | param
  | ret
deriving DecidableEq

/-- Kind of a violation, distinguished exactly as the generated code
does: the pith name of a checked return is the string `'return'`
(`ARG_NAME_RETURN_REPR`), which is not a valid parameter name. -/
def Violation.vioKind {α : Type} (e : Violation α) : VioKind :=
  if e.pithName = "return" then VioKind.ret else VioKind.param

/-- The `roar.py` exception class corresponding to a violation's kind:
the two concrete leaf kinds of the call-time type-violation branch. -/
def vioExcOf {α : Type} (e : Violation α) : RoarExc :=
  match e.vioKind with
  | VioKind.param => RoarExc.BeartypeCallTypeNonPepParamException
  | VioKind.ret => RoarExc.BeartypeCallTypeNonPepReturnException

/-- Call-time behaviour of one parameter's localization-and-check block:
an unhinted parameter generates no code; otherwise each localized pith is
checked in order and the first failing one is raised, exactly as the
concatenated `if`/`for` snippets execute. -/
def checkParam {α : Type} (cp : CulpritPolicy α) (fn : String) (p : SemParam α)
    (a : Args α) : Except (Violation α) Unit :=
  match p.hint with
  | none => Except.ok ()
  | some c =>
    match (localizedPiths p a).find? (fun v => !c v) with
    | some v => Except.error (raiseViolation cp fn p.name v)
    | none => Except.ok ()

/-- Call-time behaviour of the parameter-checking section: parameters
are processed in declaration order and a raise aborts the wrapper (a
Python `raise` propagates immediately), so at most one violation is
raised per invocation. -/
def checkParams {α : Type} (cp : CulpritPolicy α) (fn : String)
    (ps : List (SemParam α)) (a : Args α) : Except (Violation α) Unit :=
  match ps with
  | [] => Except.ok ()
  | p :: ps' =>
    match checkParam cp fn p a with
    | Except.error e => Except.error e
    | Except.ok _ => checkParams cp fn ps' a

/-- Call-time return handling mode: `CODE_RETURN_UNCHECKED`,
`CODE_RETURN_CHECK_PREFIX`/`SUFFIX` around a compiled return check, or
`PEP484_CODE_CHECK_NORETURN`. -/
inductive RetSpec (α : Type) where
  | unchecked
  | checked (c : α → Bool)
  | noReturn

/-- Call-time behaviour of a complete generated wrapper: check the
parameters in order, then call the decorated callable and handle its
return per the return snippets — return the result object directly
(`CODE_RETURN_UNCHECKED`), or localize it to the root pith variable,
check it and return that same variable (`CODE_RETURN_CHECK_PREFIX` /
`CODE_RETURN_CHECK_SUFFIX`), or unconditionally raise
(`PEP484_CODE_CHECK_NORETURN`). -/
def wrapperCall {α : Type} (cp : CulpritPolicy α) (fn : String)
    (ps : List (SemParam α)) (ret : RetSpec α) (f : Args α → α) (a : Args α) :
    Except (Violation α) α :=
  match checkParams cp fn ps a with
  | Except.error e => Except.error e
  | Except.ok _ =>
    match ret with
    | RetSpec.unchecked => Except.ok (f a)
    | RetSpec.checked c =>
        let pith := f a
        if c pith then Except.ok pith
        else Except.error (raiseViolation cp fn "return" pith)
    | RetSpec.noReturn =>
        Except.error (raiseViolation cp fn "return" (f a))

/-! ### Satisfaction predicates -/

/-- Every value each parameter's localization binds satisfies that
parameter's hint. -/
def paramsSatisfied {α : Type} (ps : List (SemParam α)) (a : Args α) : Prop :=
  ∀ p ∈ ps, ∀ v ∈ localizedPiths p a, hintOf p v = true

/-- The return value satisfies the declared return handling. -/
def retSatisfied {α : Type} : RetSpec α → α → Prop
  | RetSpec.unchecked, _ => True
  | RetSpec.checked c, v => c v = true
  | RetSpec.noReturn, _ => False

theorem checkParam_ok_of_satisfied {α : Type} (cp : CulpritPolicy α) (fn : String)
    (p : SemParam α) (a : Args α)
    (h : ∀ v ∈ localizedPiths p a, hintOf p v = true) :
    checkParam cp fn p a = Except.ok () := by
  cases hh : p.hint with
  | none => simp [checkParam, hh]
  | some c =>
    have hfind : (localizedPiths p a).find? (fun v => !c v) = none := by
      rw [List.find?_eq_none]
      intro v hv
      have hcv := h v hv
      rw [hintOf, hh] at hcv
      simp at hcv
      simp [hcv]
    simp [checkParam, hh, hfind]

theorem checkParams_ok_of_satisfied {α : Type} (cp : CulpritPolicy α) (fn : String)
    (ps : List (SemParam α)) (a : Args α) (h : paramsSatisfied ps a) :
    checkParams cp fn ps a = Except.ok () := by
  induction ps with
  | nil => rfl
  | cons p ps ih =>
    have h1 : checkParam cp fn p a = Except.ok () :=
      checkParam_ok_of_satisfied cp fn p a
        (fun v hv => h p (List.mem_cons_self p ps) v hv)
    have h2 : paramsSatisfied ps a :=
      fun q hq v hv => h q (List.mem_cons_of_mem p hq) v hv
    simp [checkParams, h1, ih h2]

/--
C1: For every decorated callable and every call whose arguments satisfy
all declared hints (and whose return satisfies the return hint, if
checked), the generated wrapper returns exactly the object the original
callable returned: the unchecked mode returns the call result directly,
and the checked mode localizes it to the root pith variable, checks it,
and returns that same variable — never a copy or transformed value.  (In
this model, object identity is equality: no operation of the wrapper
semantics constructs a new value.)
-/
theorem wrapper_identity_passthrough {α : Type} (cp : CulpritPolicy α) (fn : String)
    (ps : List (SemParam α)) (ret : RetSpec α) (f : Args α → α) (a : Args α)
    (hps : paramsSatisfied ps a) (hret : retSatisfied ret (f a)) :
    wrapperCall cp fn ps ret f a = Except.ok (f a) := by
  have hok := checkParams_ok_of_satisfied cp fn ps a hps
  cases ret with
  | unchecked => simp [wrapperCall, hok]
  | checked c =>
    have hc : c (f a) = true := hret
    simp [wrapperCall, hok, hc]
  | noReturn => exact absurd hret (by simp [retSatisfied])

/-! ### Concrete instantiation used by the scenario claims -/

/-- A small universe of Python runtime values: integers and strings. -/
inductive Val where
  | int (n : Int)
  | str (s : String)
deriving DecidableEq

/-- The check the hint `int` compiles to on `Val`. -/
def intHint : Val → Bool
  | Val.int _ => true
  | Val.str _ => false

/-- Culprit policy attaching the offending value itself (the spec's
default: the immediate offending value comes first). -/
def valCulprits : CulpritPolicy Val :=
  { mkCulprit := Culprit.val, mk_ok := fun _ => Or.inl rfl }

/-- The single parameter `x: int` of the scenario callable
`f(x: int) -> int`. -/
def xParam : SemParam Val :=
  { name := "x", index := 0, kind := ArgKind.positionalOrKeyword,
    hint := some intHint }

/-- The scenario callable's implementation: the identity on its first
argument. -/
def fIdentity : Args Val → Val := fun a => a.pos.headD (Val.int 0)

/-- Witness for C1 at `f(x: int) -> int` called as `f(5)`. -/
theorem wrapper_identity_passthrough_witness :
    wrapperCall valCulprits ("f") [xParam] (RetSpec.checked intHint) fIdentity
      { pos := [Val.int 5], kw := [] } = Except.ok (Val.int 5) :=
  wrapper_identity_passthrough valCulprits ("f") [xParam]
    (RetSpec.checked intHint) fIdentity { pos := [Val.int 5], kw := [] }
    (by
      intro p hp v hv
      rw [List.mem_singleton] at hp
      subst hp
      simp [localizedPiths, xParam] at hv
      subst hv
      decide)
    (by
      show intHint (fIdentity { pos := [Val.int 5], kw := [] }) = true
      rfl)

/-! ### Violating calls (claim C2) -/

/-- A parameter some localized value of which violates its declared
hint. -/
def paramViolated {α : Type} (p : SemParam α) (a : Args α) : Prop :=
  p.hint.isSome = true ∧ ∃ v ∈ localizedPiths p a, hintOf p v = false

theorem checkParam_ne_ok_of_violated {α : Type} (cp : CulpritPolicy α) (fn : String)
    (p : SemParam α) (a : Args α) (h : paramViolated p a) :
    checkParam cp fn p a ≠ Except.ok () := by
  rcases h with ⟨hs, v, hv, hcv⟩
  cases hh : p.hint with
  | none => rw [hh] at hs; simp at hs
  | some c =>
    rw [hintOf, hh] at hcv
    simp only [Option.getD_some] at hcv
    intro hok
    cases hf : (localizedPiths p a).find? (fun x => !c x) with
    | some w => simp [checkParam, hh, hf] at hok
    | none =>
      rw [List.find?_eq_none] at hf
      have := hf v hv
      simp [hcv] at this

theorem checkParams_error_of_violated {α : Type} (cp : CulpritPolicy α) (fn : String)
    (ps : List (SemParam α)) (a : Args α) (h : ∃ p ∈ ps, paramViolated p a) :
    ∃ e, checkParams cp fn ps a = Except.error e
      ∧ e.culprits = [cp.mkCulprit e.pithValue]
      ∧ ∃ p ∈ ps, p.name = e.pithName ∧ e.pithValue ∈ localizedPiths p a
          ∧ hintOf p e.pithValue = false := by
  induction ps with
  | nil => simp at h
  | cons p ps ih =>
    cases hcp : checkParam cp fn p a with
    | error e =>
      cases hh : p.hint with
      | none => simp [checkParam, hh] at hcp
      | some c =>
        cases hf : (localizedPiths p a).find? (fun x => !c x) with
        | none => simp [checkParam, hh, hf] at hcp
        | some v =>
          have he : e = raiseViolation cp fn p.name v := by
            have h2 := hcp
            simp only [checkParam, hh, hf] at h2
            injection h2 with h3
            exact h3.symm
          refine ⟨e, by simp [checkParams, hcp], by rw [he]; rfl, p,
            List.mem_cons_self p ps, by rw [he]; rfl, ?_, ?_⟩
          · rw [he]
            exact List.mem_of_find?_eq_some hf
          · have hcv := List.find?_some hf
            simp only [Bool.not_eq_eq_eq_not, Bool.not_true] at hcv
            rw [he, hintOf, hh]
            simpa using hcv
    | ok u =>
      cases u
      obtain ⟨q, hq, hviol⟩ := h
      rcases List.mem_cons.mp hq with rfl | hq'
      · exact absurd hcp (checkParam_ne_ok_of_violated cp fn q a hviol)
      · obtain ⟨e, he, hc, p', hp', rest⟩ := ih ⟨q, hq', hviol⟩
        exact ⟨e, by simp [checkParams, hcp, he], hc, p',
          List.mem_cons_of_mem p hp', rest⟩

/--
C2: For every decorated callable and every call in which some argument
violates its hint, the wrapper raises the call-time violation exactly
once — its result is a single raised violation and it never returns
normally — and the raised violation carries a non-empty culprit tuple
whose first element is either the offending value itself or a non-empty
string stand-in for it; the violation's kind is a call-time beartype
exception, and its pith name and value come from a genuinely violating
parameter.
-/
theorem wrapper_violation_raised_once {α : Type} (cp : CulpritPolicy α) (fn : String)
    (ps : List (SemParam α)) (ret : RetSpec α) (f : Args α → α) (a : Args α)
    (h : ∃ p ∈ ps, paramViolated p a) :
    ∃ e, wrapperCall cp fn ps ret f a = Except.error e
      ∧ e.culprits ≠ []
      ∧ (e.culprits.head? = some (Culprit.val e.pithValue)
          ∨ ∃ s, e.culprits.head? = some (Culprit.standIn s) ∧ s ≠ "")
      ∧ derives (vioExcOf e) RoarExc.BeartypeCallException = true
      ∧ (∀ v, wrapperCall cp fn ps ret f a ≠ Except.ok v)
      ∧ ∃ p ∈ ps, p.name = e.pithName ∧ e.pithValue ∈ localizedPiths p a
          ∧ hintOf p e.pithValue = false := by
  obtain ⟨e, he, hc, p, hp, hn, hm, hf⟩ := checkParams_error_of_violated cp fn ps a h
  have hw : wrapperCall cp fn ps ret f a = Except.error e := by
    simp [wrapperCall, he]
  refine ⟨e, hw, ?_, ?_, ?_, ?_, p, hp, hn, hm, hf⟩
  · rw [hc]
    simp
  · rcases cp.mk_ok e.pithValue with hmk | ⟨s, hmk, hne⟩
    · left
      rw [hc, hmk]
      rfl
    · right
      exact ⟨s, by rw [hc, hmk]; rfl, hne⟩
  · unfold vioExcOf
    cases e.vioKind <;> decide
  · intro v hv
    rw [hw] at hv
    exact Except.noConfusion hv

/-- Witness for C2 at `f(x: int) -> int` called as `f("a")`. -/
theorem wrapper_violation_raised_once_witness :
    ∃ e, wrapperCall valCulprits ("f") [xParam] (RetSpec.checked intHint) fIdentity
        { pos := [Val.str "a"], kw := [] } = Except.error e
      ∧ e.culprits ≠ []
      ∧ (e.culprits.head? = some (Culprit.val e.pithValue)
          ∨ ∃ s, e.culprits.head? = some (Culprit.standIn s) ∧ s ≠ "")
      ∧ derives (vioExcOf e) RoarExc.BeartypeCallException = true
      ∧ (∀ v, wrapperCall valCulprits ("f") [xParam] (RetSpec.checked intHint) fIdentity
            { pos := [Val.str "a"], kw := [] } ≠ Except.ok v)
      ∧ ∃ p ∈ [xParam], p.name = e.pithName ∧ e.pithValue ∈ localizedPiths p
            { pos := [Val.str "a"], kw := [] } ∧ hintOf p e.pithValue = false :=
  wrapper_violation_raised_once valCulprits ("f") [xParam] (RetSpec.checked intHint)
    fIdentity { pos := [Val.str "a"], kw := [] }
    ⟨xParam, List.mem_singleton.mpr rfl, rfl,
      Val.str ("a"), by decide, by decide⟩

/-! ### `typing.NoReturn` wrappers (claim C9) -/

/--
C9: For every decorated callable whose return is annotated
`typing.NoReturn`, the generated wrapper calls the original callable and
then unconditionally raises the violation — with pith name `"return"`
and the returned object as pith value, classified as the return
violation kind — whenever that call returns a value; such a wrapper
never returns normally.  At the text level, the
`PEP484_CODE_CHECK_NORETURN` snippet contains no `return` statement and
exactly one terminating line, its unconditional `raise` at one
indentation level.
-/
theorem noreturn_wrapper_never_returns {α : Type} (cp : CulpritPolicy α) (fn : String)
    (ps : List (SemParam α)) (f : Args α → α) (a : Args α)
    (hps : checkParams cp fn ps a = Except.ok ()) :
    (∃ e, wrapperCall cp fn ps RetSpec.noReturn f a = Except.error e
        ∧ e.pithName = "return" ∧ e.pithValue = f a
        ∧ vioExcOf e = RoarExc.BeartypeCallTypeNonPepReturnException)
    ∧ (∀ v, wrapperCall cp fn ps RetSpec.noReturn f a ≠ Except.ok v)
    ∧ ((pyLinesOf PEP484_CODE_CHECK_NORETURN).filter
          (fun l => decide (l.kind = PyLineKind.returnLine)) = []
        ∧ (pyLinesOf PEP484_CODE_CHECK_NORETURN).filter isTermLine
            = [pl 4 PyLineKind.raiseLine]) := by
  have hw : wrapperCall cp fn ps RetSpec.noReturn f a
      = Except.error (raiseViolation cp fn ("return") (f a)) := by
    simp [wrapperCall, hps]
  refine ⟨⟨raiseViolation cp fn ("return") (f a), hw, rfl, rfl, rfl⟩, ?_, by decide, by decide⟩
  intro v hv
  rw [hw] at hv
  exact Except.noConfusion hv

/-- Witness for C9: a parameterless `NoReturn` callable that does
return. -/
theorem noreturn_wrapper_never_returns_witness :
    ∃ e, wrapperCall valCulprits ("f") ([] : List (SemParam Val)) RetSpec.noReturn
        fIdentity { pos := [Val.int 5], kw := [] } = Except.error e
      ∧ e.pithName = "return"
      ∧ e.pithValue = fIdentity { pos := [Val.int 5], kw := [] }
      ∧ vioExcOf e = RoarExc.BeartypeCallTypeNonPepReturnException :=
  (noreturn_wrapper_never_returns valCulprits ("f") [] fIdentity
    { pos := [Val.int 5], kw := [] } rfl).1

/-! ### The concrete scenario `f(x: int) -> int: return x` (claim C6) -/

/-- The wrapper beartype generates for `f(x: int) -> int: return x`
under the default configuration. -/
def fScenario (a : Args Val) : Except (Violation Val) Val :=
  wrapperCall valCulprits ("f") [xParam] (RetSpec.checked intHint) fIdentity a

/--
C6: Decorating `f(x: int) -> int: return x` with the default
configuration yields a wrapper for which `f(5)` returns `5`, and
`f("a")` raises the parameter-violation kind, with a message starting
with `"Function"` and with the culprit being the offending value `"a"`
itself.
-/
theorem scenario_f_int_identity :
    fScenario { pos := [Val.int 5], kw := [] } = Except.ok (Val.int 5)
    ∧ ∃ e, fScenario { pos := [Val.str "a"], kw := [] } = Except.error e
        ∧ e.vioKind = VioKind.param
        ∧ vioExcOf e = RoarExc.BeartypeCallTypeNonPepParamException
        ∧ List.isPrefixOf (String.toList ("Function")) (String.toList (e.message)) = true
        ∧ e.culprits = [Culprit.val (Val.str ("a"))]
        ∧ e.pithValue = Val.str ("a")
        ∧ e.pithName = "x" := by
  refine ⟨rfl, ⟨raiseViolation valCulprits ("f") ("x") (Val.str ("a")),
    rfl, rfl, rfl, by decide, rfl, rfl, rfl⟩⟩

/-! ### Localization guards the check (claim C4) -/

/-- A line carrying actual code (not blank, not a comment). -/
def isCodeLine (l : PyLine) : Bool :=
  match l.kind with
  | PyLineKind.blank => false
  | PyLineKind.comment => false
  | _ => true

/-- A block-opening line (`if` or `for`). -/
def isBlockOpener (l : PyLine) : Bool :=
  match l.kind with
  | PyLineKind.ifOpener => true
  | PyLineKind.forOpener => true
  | _ => false

/-- Indentation of the conditional (or loop) the localization snippet of
a parameter kind leaves open: its last block-opening line. -/
def localizeGuardIndent (k : ArgKind) : Option Nat :=
  (((localizeLinesL k).filter isBlockOpener).getLast?).map (fun l => l.indent)

/-- Every code line of the check fragment sits strictly deeper than the
conditional the localization snippet leaves open, so the check executes
only when that conditional is taken (i.e. the parameter was passed). -/
def checkNestedUnderGuard (k : ArgKind) (r : Bool) : Bool :=
  match localizeGuardIndent k with
  | some d => (checkLinesL r).all (fun l => !isCodeLine l || decide (d < l.indent))
  | none => false

/-- Within one hinted parameter's lines, the localization's first
block-opener precedes the check fragment's `if not` opener (which sits
at eight spaces). -/
def localizeOpensBeforeCheck (k : ArgKind) (r : Bool) : Bool :=
  let ls := localizeLinesL k ++ checkLinesL r
  match ls.findIdx? isBlockOpener,
        ls.findIdx? (fun l => decide (l.kind = PyLineKind.ifOpener)
          && decide (l.indent = 8)) with
  | some i, some j => decide (i < j)
  | _, _ => false

/--
C4: For every parameter kind, the assembled per-parameter text first
emits the localization fragment (binding the root pith by positional
index, keyword lookup or the never-passed sentinel default) and places
the parameter's check fragment strictly inside the conditional that
localization opens; and semantically the check is skipped entirely —
no violation can be raised — when the parameter has no hint or was not
passed (localizes no pith).
-/
theorem param_localized_then_guarded :
    (∀ (k : ArgKind) (r : Bool),
        checkNestedUnderGuard k r = true ∧ localizeOpensBeforeCheck k r = true)
    ∧ (∀ (α : Type) (cp : CulpritPolicy α) (fn : String) (p : SemParam α) (a : Args α),
        p.hint = none ∨ localizedPiths p a = [] →
        checkParam cp fn p a = Except.ok ()) := by
  constructor
  · intro k r
    cases k <;> cases r <;> exact ⟨by decide, by decide⟩
  · intro α cp fn p a h
    rcases h with h | h
    · simp [checkParam, h]
    · cases hh : p.hint with
      | none => simp [checkParam, hh]
      | some c => simp [checkParam, hh, h]

/-- An unhinted parameter, for the C4 witness. -/
def uParam : SemParam Val :=
  { name := "u", index := 0, kind := ArgKind.keywordOnly, hint := none }

/-- Witness for C4: the check step of an unhinted parameter raises
nothing. -/
theorem param_localized_then_guarded_witness :
    checkParam valCulprits ("f") uParam { pos := [], kw := [] } = Except.ok () :=
  param_localized_then_guarded.2 Val valCulprits ("f") uParam
    { pos := [], kw := [] } (Or.inl rfl)

/-! ### The wrapper signature (claim C3) -/

/-- Trim the leading spaces of a line. -/
def trimLead (cs : Chars) : Chars := cs.dropWhile (fun c => c = ' ')

/-- The parameter declarations of a generated `def` signature: every
line strictly between the `def ...(` header line and the closing `):`
line, trimmed. -/
def signatureParamEntries (s : String) : List Chars :=
  (((splitLines s.toList).drop 1).dropLast).map trimLead

/--
C3: The generated wrapper signature accepts exactly `*args` and
`**kwargs` plus two hidden keyword parameters with defaults — one
binding the original decorated callable (`__beartype_func`) and one
binding the shared beartypistry singleton (`__beartypistry`) — so
generated code references both without free-variable capture.  This
holds of `_codesnip.CODE_SIGNATURE` verbatim and of the
`wrapsnip.CODE_SIGNATURE` template instantiated with those two hidden
parameter declarations; exactly the two hidden entries carry a
default (`=`).
-/
theorem wrapper_signature_two_hidden_params :
    signatureParamEntries (codesnipCodeSignature ("f"))
      = [String.toList ("*args,"),
         String.toList ("__beartype_func=__beartype_func,"),
         String.toList ("__beartypistry=__beartypistry,"),
         String.toList ("**kwargs")]
    ∧ signatureParamEntries
        (wrapsnipCodeSignature ("") ("f") codeSignatureArgsTwoHidden)
      = signatureParamEntries (codesnipCodeSignature ("f"))
    ∧ ((signatureParamEntries (codesnipCodeSignature ("f"))).countP
        (fun l => l.contains '=')) = 2
    ∧ String.toList (ARG_NAME_FUNC ++ "=" ++ ARG_NAME_FUNC ++ ",")
        ∈ signatureParamEntries (codesnipCodeSignature ("f"))
    ∧ String.toList (PARAM_NAME_TYPISTRY ++ "=" ++ PARAM_NAME_TYPISTRY ++ ",")
        ∈ signatureParamEntries (codesnipCodeSignature ("f")) := by
  refine ⟨by decide, by decide, by decide, by decide, by decide⟩

/-! ### Compilation failure of the assembled text (claim C8) -/

/-- A decoration-time failure: the exception class raised and the
diagnostic payload it carries. -/
structure DecorError where
  kind : RoarExc
  sourceText : String
deriving DecidableEq

/-- Modelled from the spec (§4.4, §7(5)): the compiler step of
decoration (`beartype._decor` wrapper compilation, not included here).
It compiles the assembled wrapper text and returns the wrapper; if
compilation reports a syntax error — `compilesOk` is the compiler's
verdict — it raises `BeartypeDecorWrapperException` carrying the
offending generated source text, and no wrapper is produced. -/
def compileWrapper (compilesOk : String → Bool) (src : String) :
    Except DecorError String :=
  if compilesOk src then Except.ok src
  else Except.error { kind := RoarExc.BeartypeDecorWrapperException, sourceText := src }

/--
C8: If compiling the assembled wrapper text raises a syntax error,
decoration fails with the dedicated invalid-wrapper exception
(`BeartypeDecorWrapperException`, a concrete decoration-time beartype
exception) carrying the offending generated source text for diagnosis;
the exception belongs to neither the hint-error nor the parameter-error
branches (the user-input error branches) nor the call-time branch, and
no wrapper is installed.
-/
theorem compile_failure_raises_invalid_wrapper (compilesOk : String → Bool)
    (src : String) (h : compilesOk src = false) :
    ∃ e, compileWrapper compilesOk src = Except.error e
      ∧ e.kind = RoarExc.BeartypeDecorWrapperException
      ∧ e.sourceText = src
      ∧ isAbstractExc e.kind = false
      ∧ derives e.kind RoarExc.BeartypeDecorException = true
      ∧ derives e.kind RoarExc.BeartypeException = true
      ∧ derives e.kind RoarExc.BeartypeDecorHintException = false
      ∧ derives e.kind RoarExc.BeartypeDecorParamException = false
      ∧ derives e.kind RoarExc.BeartypeCallException = false
      ∧ (∀ w, compileWrapper compilesOk src ≠ Except.ok w) := by
  have hw : compileWrapper compilesOk src
      = Except.error { kind := RoarExc.BeartypeDecorWrapperException, sourceText := src } := by
    simp [compileWrapper, h]
  refine ⟨_, hw, rfl, rfl, rfl, rfl, rfl, rfl, rfl, rfl, ?_⟩
  intro w hokw
  rw [hw] at hokw
  exact Except.noConfusion hokw

/-- A compiler verdict rejecting everything, for the C8 witness. -/
def neverCompiles : String → Bool := fun _ => false

/-- Witness for C8 on a concrete syntactically invalid text. -/
theorem compile_failure_raises_invalid_wrapper_witness :
    ∃ e, compileWrapper neverCompiles ("def f(:") = Except.error e
      ∧ e.kind = RoarExc.BeartypeDecorWrapperException
      ∧ e.sourceText = "def f(:"
      ∧ isAbstractExc e.kind = false
      ∧ derives e.kind RoarExc.BeartypeDecorException = true
      ∧ derives e.kind RoarExc.BeartypeException = true
      ∧ derives e.kind RoarExc.BeartypeDecorHintException = false
      ∧ derives e.kind RoarExc.BeartypeDecorParamException = false
      ∧ derives e.kind RoarExc.BeartypeCallException = false
      ∧ (∀ w, compileWrapper neverCompiles ("def f(:") ≠ Except.ok w) :=
  compile_failure_raises_invalid_wrapper neverCompiles ("def f(:") rfl

/-! ### The cached-format-variable initializer (claim C10) -/

/-- Whether `needle` occurs as a contiguous substring of `hay`
(Python's `in` on strings). -/
def hasInfix (needle : Chars) : Chars → Bool
  | [] => needle.isEmpty
  | c :: cs => needle.isPrefixOf (c :: cs) || hasInfix needle cs

/-- A successfully constructed `BeartypeDecorHintPepException`: the
state `super().__init__(message)` stores. -/
structure PepExcMessage where
  message : String
deriving DecidableEq

/-- `BeartypeDecorHintPepException.__init__` from `src/beartype/roar.py`
(inherited unchanged by its subclasses `BeartypeDecorHintPep560Exception`
and `BeartypeDecorHintPepUnsupportedException`): if the passed message
does not contain the magic `CACHED_FORMAT_VAR` substring, raise
`_BeartypeUtilCachedExceptionException` instead of creating the
exception; otherwise store the message unchanged.  The value of
`CACHED_FORMAT_VAR` lives in the missing
`beartype._util.cache.utilcachetext` module and is therefore a
parameter here. -/
def pepExceptionInit (cachedFormatVar message : String) :
    Except RoarExc PepExcMessage :=
  if hasInfix (cachedFormatVar.toList) (message.toList) then
    Except.ok { message := message }
  else Except.error RoarExc.BeartypeUtilCachedExceptionException

/--
C10: Constructing a PEP-compliant decoration-time hint exception with a
message that does not contain the magic cached-format-variable substring
does not create the exception but raises the private cached-exception
error (`_BeartypeUtilCachedExceptionException`, of the private caching
utility branch); when the substring is present, construction succeeds
and the message is stored unchanged.  The initializer is shared: both
concrete subclasses of `BeartypeDecorHintPepException` inherit it.
-/
theorem pep_exception_requires_format_var (cachedFormatVar message : String) :
    (hasInfix (cachedFormatVar.toList) (message.toList) = false →
        pepExceptionInit cachedFormatVar message
          = Except.error RoarExc.BeartypeUtilCachedExceptionException
        ∧ ∀ x, pepExceptionInit cachedFormatVar message ≠ Except.ok x)
    ∧ (hasInfix (cachedFormatVar.toList) (message.toList) = true →
        pepExceptionInit cachedFormatVar message
          = Except.ok { message := message })
    ∧ derives RoarExc.BeartypeUtilCachedExceptionException
        RoarExc.BeartypeUtilCacheException = true
    ∧ isAbstractExc RoarExc.BeartypeUtilCacheException = true
    ∧ superclass RoarExc.BeartypeDecorHintPep560Exception
        = some RoarExc.BeartypeDecorHintPepException
    ∧ superclass RoarExc.BeartypeDecorHintPepUnsupportedException
        = some RoarExc.BeartypeDecorHintPepException := by
  refine ⟨?_, ?_, by decide, by decide, by decide, by decide⟩
  · intro h
    have hw : pepExceptionInit cachedFormatVar message
        = Except.error RoarExc.BeartypeUtilCachedExceptionException := by
      simp only [pepExceptionInit]
      rw [h]
      simp
    refine ⟨hw, ?_⟩
    intro x hx
    rw [hw] at hx
    exact Except.noConfusion hx
  · intro h
    simp only [pepExceptionInit]
    rw [h]
    simp

/-- Witness for C10: a message missing the magic substring is rejected,
one containing it is accepted with the message stored unchanged. -/
theorem pep_exception_requires_format_var_witness :
    (pepExceptionInit ("FORMAT_VAR") ("type hint invalid")
        = Except.error RoarExc.BeartypeUtilCachedExceptionException
      ∧ ∀ x, pepExceptionInit ("FORMAT_VAR") ("type hint invalid") ≠ Except.ok x)
    ∧ pepExceptionInit ("FORMAT_VAR") ("type hint FORMAT_VAR invalid")
        = Except.ok { message := "type hint FORMAT_VAR invalid" } :=
  ⟨(pep_exception_requires_format_var ("FORMAT_VAR") ("type hint invalid")).1
      (by decide),
   (pep_exception_requires_format_var ("FORMAT_VAR")
      ("type hint FORMAT_VAR invalid")).2.1 (by decide)⟩

end BeartypeSpec
